import Mathlib

/-!
Shallow embedding of the SmartFields pipeline orchestrator
(src/services/smartfields/main.py) and proofs about its behavior.

Strings from the log files are modelled as `List Char`; Python's
substring test `pat in s` and `s.find(pat)` are modelled by `containsSub`
and `findSub` below.  Wall-clock time is discretised to whole seconds and
advances only at `asyncio.sleep` points; blocking I/O is abstracted into
oracle functions supplied as an environment.  Coordinates (floats in the
source, only ever stored and echoed back, never computed with) are
modelled as integer pairs.
-/

namespace SmartFields

/-- First index at which `pat` occurs as a contiguous sublist of `s`
(Python `s.find(pat)`), or `none` when absent. -/
def findSub (pat : List Char) : List Char → Option Nat
  | [] => if pat.isPrefixOf ([] : List Char) then some 0 else none
  | c :: tl =>
    if pat.isPrefixOf (c :: tl) then some 0
    else (findSub pat tl).map (· + 1)

/-- Python `pat in s` for strings. -/
def containsSub (pat s : List Char) : Bool :=
  (findSub pat s).isSome

/-- Success sentinel built in wait_for_completion (main.py line 100):
`f"Mission {mission_name} thread finished"`. -/
def completion_pattern (mission : List Char) : List Char :=
  "Mission ".data ++ mission ++ " thread finished".data

/-- Failure sentinels checked in wait_for_completion (main.py lines 136-143). -/
def failure_patterns (mission : List Char) : List (List Char) :=
  [ "Mission ".data ++ mission ++ " failed:".data
  , "Mission failed:".data
  , "Mission thread finished with errors".data
  , "AssertionError".data
  , "connection timed out".data
  , "Mission process exited with return code:".data ]

/-- Scan of one poll tick's newly appended content
(main.py lines 135-159): any failure pattern present returns
`some false`; otherwise, if the success sentinel is present, the text
from its first occurrence onward is additionally searched for
"finished with errors" (returning `some false` when found, else
`some true`); otherwise `none` (keep monitoring). -/
def scan_new_content (mission new_content : List Char) : Option Bool :=
  if (failure_patterns mission).any (fun p => containsSub p new_content) then
    some false
  else
    match findSub (completion_pattern mission) new_content with
    | some completion_index =>
      let after_completion := new_content.drop completion_index
      if containsSub "finished with errors".data after_completion then
        some false
      else
        some true
    | none => none

/-- Environment for wait_for_completion: the log file's content at each
whole second (none = file does not exist) and the pipeline stop event's
value at each whole second.  Time 0 is the moment wait_for_completion is
entered (so start_time = log_wait_start = 0). -/
structure MonitorEnv where
  file : Nat → Option (List Char)
  stop : Nat → Bool

/-- Outcome of wait_for_completion, refined by the log message at each
return site: success (line 159), failure (lines 147/155), timedOut
(lines 120/164), cancelled (lines 117/172-173).  The source returns a
plain Bool (True only for success). -/
inductive MonitorOutcome where
  | success
  | failure
  | timedOut
  | cancelled
  deriving DecidableEq

/-- Result of the appearance phase: the file appeared at time `t`, or
the monitor returned early with an outcome at time `t`. -/
inductive PhaseResult where
  | proceed (t : Nat)
  | bail (out : MonitorOutcome) (t : Nat)
  deriving DecidableEq

/-- Appearance phase (main.py lines 113-123): while the file does not
exist, check the stop event, then the 30-second appearance timeout, then
sleep 2 seconds.  `fuel` bounds the number of iterations (none = fuel
exhausted before the loop resolved). -/
def log_wait_loop (env : MonitorEnv) : Nat → Nat → Option PhaseResult
  | 0, _ => none
  | fuel + 1, t =>
    if (env.file t).isSome then some (.proceed t)
    else if env.stop t then some (.bail .cancelled t)
    else if 30 < t then some (.bail .timedOut t)
    else log_wait_loop env fuel (t + 2)

/-- Monitoring phase (main.py lines 126-173): each tick checks the stop
event, stats the file (a stat failure is caught and skips straight to
the sleep), reads and scans the bytes appended past `initial_size` when
the file grew, advances `initial_size`, checks the 180-second overall
timeout (measured from time 0, i.e. from entry to wait_for_completion),
and sleeps 2 seconds. -/
def monitor_loop (env : MonitorEnv) (mission : List Char) :
    Nat → Nat → Nat → Option (MonitorOutcome × Nat)
  | 0, _, _ => none
  | fuel + 1, initial_size, t =>
    if env.stop t then some (.cancelled, t)
    else
      match env.file t with
      | none => monitor_loop env mission fuel initial_size (t + 2)
      | some content =>
        if initial_size < content.length then
          match scan_new_content mission (content.drop initial_size) with
          | some true => some (.success, t)
          | some false => some (.failure, t)
          | none =>
            if 180 < t then some (.timedOut, t)
            else monitor_loop env mission fuel content.length (t + 2)
        else
          if 180 < t then some (.timedOut, t)
          else monitor_loop env mission fuel initial_size (t + 2)

/-- wait_for_completion (main.py lines 90-173): record the file's
current length as the baseline (0 when the file does not exist), run the
appearance phase, then monitor for the sentinels.  Returns the outcome
together with the time (in seconds since entry) at which it returned;
`none` means the supplied fuel ran out first. -/
def wait_for_completion (env : MonitorEnv) (mission : List Char) (fuel : Nat) :
    Option (MonitorOutcome × Nat) :=
  let initial_size := match env.file 0 with
    | some content => content.length
    | none => 0
  match log_wait_loop env fuel 0 with
  | none => none
  | some (.bail out t) => some (out, t)
  | some (.proceed t) => monitor_loop env mission fuel initial_size t

/-- Result of one HTTP request as seen by call_service: a response with
a status code and body text, a timeout (asyncio.TimeoutError), or any
other exception. -/
inductive HttpOutcome where
  | response (status : Nat) (text : String)
  | timedOutErr
  | otherError
  deriving DecidableEq

/-- The fixed aiohttp ClientTimeout used by call_service
(main.py line 64): 30 seconds. -/
def client_timeout_seconds : Nat := 30

/-- call_service (main.py lines 62-88) as a function of the request's
outcome: returns `status_code == 200` on a response, false on timeout,
false on any other exception; it is total (never raises). -/
def call_service (r : HttpOutcome) : Bool :=
  match r with
  | .response status _ => status == 200
  | .timedOutErr => false
  | .otherError => false

/-- One entry of the hard-coded pipeline flow (main.py lines 193-197). -/
structure FlowStep where
  service : String
  endpointName : String
  mission : Option String
  deriving DecidableEq

/-- The pipeline flow: openpasslite LTT, wildwings, openpasslite RTT. -/
def flow : List FlowStep :=
  [ ⟨"openpasslite", "/start_mission", some "LTT"⟩
  , ⟨"wildwings", "/start_mission", none⟩
  , ⟨"openpasslite", "/start_mission", some "RTT"⟩ ]

/-- Inter-mission delay in seconds (main.py lines 234-248): 3 seconds
after an openpasslite TAKEOFF mission, 10 seconds otherwise. -/
def interDelay (st : FlowStep) : Nat :=
  if st.service == "openpasslite" && st.mission == some "TAKEOFF" then 3 else 10

/-- Environment for execute_pipeline: the result of the (single)
call_service invocation for each step index, the result of
wait_for_completion for each step index, and the stop event's value at
the n-th stop check performed directly by execute_pipeline (checks made
inside call_service / wait_for_completion are folded into those
oracles). -/
structure PipeEnv where
  callOk : Nat → Bool
  waitOk : Nat → Bool
  stop : Nat → Bool

/-- Observable events of a pipeline execution, in order. -/
inductive PipeEv where
  | callService (idx : Nat) (ok : Bool)
  | waitCompletion (idx : Nat) (ok : Bool)
  | sleepSecond
  deriving DecidableEq

/-- The cancellable inter-mission wait (main.py lines 237-241/244-248):
`n` one-second sleeps, the stop event checked once before each sleep.
Returns (aborted?, next check counter, sleep events performed). -/
def delay_loop (env : PipeEnv) : Nat → Nat → Bool × Nat × List PipeEv
  | 0, k => (false, k, [])
  | n + 1, k =>
    if env.stop k then (true, k + 1, [])
    else
      let r := delay_loop env n (k + 1)
      (r.1, r.2.1, PipeEv.sleepSecond :: r.2.2)

/-- The body of execute_pipeline's for-loop (main.py lines 199-248) over
the remaining (index, step) pairs, threading the stop-check counter.
Per step: stop check (abort → False); call_service — on failure, abort
when idx = 0, skip to the next step when idx = 1, abort otherwise;
wait_for_completion — same index-based policy; then the cancellable
inter-mission delay (abort → False).  Exhausting the list returns True
(main.py lines 250-251). -/
def run_steps (env : PipeEnv) : List (Nat × FlowStep) → Nat → Bool × Nat × List PipeEv
  | [], k => (true, k, [])
  | (idx, st) :: rest, k =>
    if env.stop k then (false, k + 1, [])
    else
      let cOk := env.callOk idx
      if !cOk then
        if idx == 0 then (false, k + 1, [.callService idx cOk])
        else if idx == 1 then
          let r := run_steps env rest (k + 1)
          (r.1, r.2.1, PipeEv.callService idx cOk :: r.2.2)
        else (false, k + 1, [.callService idx cOk])
      else
        let wOk := env.waitOk idx
        if !wOk then
          if idx == 0 then (false, k + 1, [.callService idx cOk, .waitCompletion idx wOk])
          else if idx == 1 then
            let r := run_steps env rest (k + 1)
            (r.1, r.2.1, PipeEv.callService idx cOk :: PipeEv.waitCompletion idx wOk :: r.2.2)
          else (false, k + 1, [.callService idx cOk, .waitCompletion idx wOk])
        else
          let d := delay_loop env (interDelay st) (k + 1)
          if d.1 then
            (false, d.2.1, PipeEv.callService idx cOk :: PipeEv.waitCompletion idx wOk :: d.2.2)
          else
            let r := run_steps env rest d.2.1
            (r.1, r.2.1,
              PipeEv.callService idx cOk :: PipeEv.waitCompletion idx wOk :: (d.2.2 ++ r.2.2))

/-- execute_pipeline (main.py lines 175-259) applied to the hard-coded
flow, starting the stop-check counter at 0.  Returns (overall result,
number of stop checks performed, event trace). -/
def execute_pipeline (env : PipeEnv) : Bool × Nat × List PipeEv :=
  run_steps env flow.enum 0

/-- Number of call_service invocations for step `idx` in a trace. -/
def countCalls (tr : List PipeEv) (idx : Nat) : Nat :=
  tr.countP (fun e => match e with
    | .callService i _ => i == idx
    | _ => false)

/-- The shared run state: pipeline_running, the stop event, the stored
lat/lon coordinates (opaque integer pairs standing for the floats, which
are only ever stored and echoed), the number of created-but-not-yet
started background tasks, and the number of background executions past
the single-flight guard and still running. -/
structure SState where
  running : Bool
  stopRequested : Bool
  coords : Option (Int × Int)
  pendingTasks : Nat
  activeTasks : Nat
  deriving DecidableEq

/-- State at process start: everything idle. -/
def initState : SState :=
  { running := false, stopRequested := false, coords := none
  , pendingTasks := 0, activeTasks := 0 }

/-- Result of the /initiate_pipeline handler. -/
inductive InitResult where
  | accepted
  | alreadyRunning409
  deriving DecidableEq

/-- initiate_process (main.py lines 306-342): under the lock, reject
with HTTP 409 when pipeline_running; otherwise store the coordinates and
create the background task (asyncio.create_task), returning immediately
with the accepted response — the pipeline body has not run yet. -/
def initiate_process (s : SState) (la lo : Int) : InitResult × SState :=
  if s.running then (.alreadyRunning409, s)
  else
    (.accepted,
      { s with coords := some (la, lo), pendingTasks := s.pendingTasks + 1 })

/-- The prologue of execute_pipeline run when a created task is first
scheduled (main.py lines 179-184): under the lock, a task that finds
pipeline_running already true returns immediately; otherwise it sets
pipeline_running and clears the stop event and becomes the active
execution. -/
def task_begin (s : SState) : SState :=
  if s.pendingTasks = 0 then s
  else if s.running then { s with pendingTasks := s.pendingTasks - 1 }
  else
    { s with pendingTasks := s.pendingTasks - 1, running := true,
             stopRequested := false, activeTasks := s.activeTasks + 1 }

/-- The finally block of execute_pipeline (main.py lines 256-259): the
active execution clears pipeline_running and the stop event on exit. -/
def task_finish (s : SState) : SState :=
  if s.activeTasks = 0 then s
  else
    { s with activeTasks := s.activeTasks - 1, running := false,
             stopRequested := false }

/-- The stop event being set by /stop_pipeline (main.py line 402);
a no-op when nothing is running (lines 394-400). -/
def request_stop (s : SState) : SState :=
  if s.running then { s with stopRequested := true } else s

/-- Atomic operations on the shared run state. -/
inductive SOp where
  | initiate (la lo : Int)
  | taskBegin
  | taskFinish
  | reqStop

/-- Apply one operation to the state. -/
def apply_op (s : SState) : SOp → SState
  | .initiate la lo => (initiate_process s la lo).2
  | .taskBegin => task_begin s
  | .taskFinish => task_finish s
  | .reqStop => request_stop s

/-- Run a sequence of operations from a state. -/
def run_ops (s : SState) (ops : List SOp) : SState :=
  ops.foldl apply_op s

/-- Single-flight invariant: at most one background execution is active,
and pipeline_running is true exactly while one is. -/
def SingleFlight (s : SState) : Prop :=
  s.activeTasks ≤ 1 ∧ (s.running = true ↔ s.activeTasks = 1)

/-- The known services, in the order of get_services (main.py 41-46). -/
def services : List String := ["openpasslite", "wildwings"]

/-- Response of /stop_pipeline: the status string, the services whose
/stop_mission returned 200, those that failed or errored, every service
actually contacted, and whether the handler called
pipeline_task.cancel(). -/
structure StopResult where
  statusMsg : String
  stoppedServices : List String
  failedServices : List String
  contactedServices : List String
  cancelledTask : Bool
  deriving DecidableEq

/-- stop_pipeline (main.py lines 386-439): when nothing is running,
return already_stopped without contacting any service; otherwise set the
stop event, POST /stop_mission to every known service (splitting them
into acknowledged and failed according to the `svcOk` oracle), and then
cancel the background task whenever one exists and is not done
(`taskPresentNotDone`). -/
def stop_pipeline (s : SState) (svcOk : String → Bool)
    (taskPresentNotDone : Bool) : StopResult × SState :=
  if s.running = false then
    ({ statusMsg := "already_stopped", stoppedServices := []
     , failedServices := [], contactedServices := [], cancelledTask := false }, s)
  else
    ({ statusMsg := "stopped"
     , stoppedServices := services.filter (fun n => svcOk n)
     , failedServices := services.filter (fun n => !svcOk n)
     , contactedServices := services
     , cancelledTask := taskPresentNotDone }
    , { s with stopRequested := true })

/-! ### Helper lemmas -/

/-- When every failure pattern is absent, the `any` over them is false. -/
lemma any_failure_eq_false {mission content : List Char}
    (hall : (failure_patterns mission).all
      (fun p => !(containsSub p content)) = true) :
    (failure_patterns mission).any (fun p => containsSub p content) = false := by
  rw [List.any_eq_false]
  intro p hp
  have h := List.all_eq_true.mp hall p hp
  simp at h
  simp [h]

/-- Scan result when no failure pattern is present, the success sentinel
occurs first at index `j`, and "finished with errors" does not occur at
or after it. -/
lemma scan_success {mission content : List Char} {j : Nat}
    (hall : (failure_patterns mission).all
      (fun p => !(containsSub p content)) = true)
    (hfind : findSub (completion_pattern mission) content = some j)
    (herr : containsSub "finished with errors".data (content.drop j) = false) :
    scan_new_content mission content = some true := by
  simp [scan_new_content, any_failure_eq_false hall, hfind, herr]

/-- Scan result when no failure pattern is present but "finished with
errors" occurs at or after the success sentinel's first occurrence. -/
lemma scan_trailing_errors {mission content : List Char} {j : Nat}
    (hall : (failure_patterns mission).all
      (fun p => !(containsSub p content)) = true)
    (hfind : findSub (completion_pattern mission) content = some j)
    (herr : containsSub "finished with errors".data (content.drop j) = true) :
    scan_new_content mission content = some false := by
  simp [scan_new_content, any_failure_eq_false hall, hfind, herr]

/-- A successful findSub means the pattern is a prefix of the tail
starting at the returned index. -/
lemma findSub_isPrefixOf {pat : List Char} :
    ∀ {s : List Char} {j : Nat}, findSub pat s = some j →
      pat.isPrefixOf (s.drop j) = true := by
  intro s
  induction s with
  | nil =>
    intro j h
    simp only [findSub] at h
    split at h
    · cases h; simpa using ‹pat.isPrefixOf ([] : List Char) = true›
    · cases h
  | cons c tl ih =>
    intro j h
    simp only [findSub] at h
    split at h
    · cases h; simpa using ‹pat.isPrefixOf (c :: tl) = true›
    · rcases Option.map_eq_some'.mp h with ⟨j', hj', rfl⟩
      simpa using ih hj'

/-- The success sentinel is never the empty string. -/
lemma completion_pattern_ne_nil (mission : List Char) :
    completion_pattern mission ≠ [] := by
  have h8 : "Mission ".data ≠ [] := by decide
  simp only [completion_pattern]
  intro h
  exact h8 (List.append_eq_nil.mp (List.append_eq_nil.mp h).1).1

/-- Content in which the success sentinel occurs is nonempty. -/
lemma pos_length_of_findSub {mission content : List Char} {j : Nat}
    (hfind : findSub (completion_pattern mission) content = some j) :
    0 < content.length := by
  have hpre := findSub_isPrefixOf hfind
  rcases hd : content.drop j with _ | ⟨c, tl⟩
  · rw [hd] at hpre
    rcases hp : completion_pattern mission with _ | ⟨p, ptl⟩
    · exact absurd hp (completion_pattern_ne_nil mission)
    · rw [hp] at hpre; simp [List.isPrefixOf] at hpre
  · have : 0 < (content.drop j).length := by rw [hd]; simp
    rw [List.length_drop] at this
    omega

/-- One monitoring tick that observes no growth just sleeps 2 seconds. -/
lemma monitor_step_nogrow {env : MonitorEnv} {mission : List Char}
    {fuel init t : Nat} {content : List Char}
    (hfuel : 1 ≤ fuel)
    (hstop : env.stop t = false)
    (hfile : env.file t = some content)
    (hsz : ¬ init < content.length)
    (ht : ¬ 180 < t) :
    monitor_loop env mission fuel init t
      = monitor_loop env mission (fuel - 1) init (t + 2) := by
  cases fuel with
  | zero => omega
  | succ n => simp [monitor_loop, hstop, hfile, hsz, ht]

/-- One monitoring tick that observes growth and whose scan resolves
returns immediately at the current time. -/
lemma monitor_step_scan {env : MonitorEnv} {mission : List Char}
    {fuel init t : Nat} {content : List Char} {b : Bool}
    (hfuel : 1 ≤ fuel)
    (hstop : env.stop t = false)
    (hfile : env.file t = some content)
    (hsz : init < content.length)
    (hscan : scan_new_content mission (content.drop init) = some b) :
    monitor_loop env mission fuel init t
      = some (if b then .success else .failure, t) := by
  cases fuel with
  | zero => omega
  | succ n => cases b <;> simp [monitor_loop, hstop, hfile, hsz, hscan]

/-- One monitoring tick that observes growth whose scan resolves nothing
advances the baseline to the new length and sleeps 2 seconds. -/
lemma monitor_step_grow_none {env : MonitorEnv} {mission : List Char}
    {fuel init t : Nat} {content : List Char}
    (hfuel : 1 ≤ fuel)
    (hstop : env.stop t = false)
    (hfile : env.file t = some content)
    (hsz : init < content.length)
    (hscan : scan_new_content mission (content.drop init) = none)
    (ht : ¬ 180 < t) :
    monitor_loop env mission fuel init t
      = monitor_loop env mission (fuel - 1) content.length (t + 2) := by
  cases fuel with
  | zero => omega
  | succ n => simp [monitor_loop, hstop, hfile, hsz, hscan, ht]

/-- A log file holding `pre` when the baseline is recorded (time 0) and
`pre ++ app` from the next second on, with the stop event never set. -/
def growEnv (pre app : List Char) : MonitorEnv :=
  ⟨fun t => if t = 0 then some pre else some (pre ++ app), fun _ => false⟩

/-! ### Claim theorems -/

/-- C3: in the completion monitor, for every poll tick whose newly
appended content contains both a failure sentinel (first occurring at
index `i`) and the success sentinel (first occurring at index `j`) for
the watched job, the outcome of the tick's scan is failure (`some
false`) when the failure text occurs at or before the success text's
position (`i ≤ j`): failure sentinels are evaluated before the success
sentinel is checked. -/
theorem claim_C3_failure_evaluated_first
    (mission content p : List Char) (i j : Nat)
    (hp : p ∈ failure_patterns mission)
    (hi : findSub p content = some i)
    (hj : findSub (completion_pattern mission) content = some j)
    (hij : i ≤ j) :
    scan_new_content mission content = some false := by
  have hc : containsSub p content = true := by
    simp [containsSub, hi]
  have hany : (failure_patterns mission).any
      (fun q => containsSub q content) = true :=
    List.any_eq_true.mpr ⟨p, hp, hc⟩
  simp [scan_new_content, hany]

/-- Witness for C3 at a concrete tick: the content holds the failure
sentinel at index 0 and the success sentinel at index 22, and the scan
reports failure. -/
theorem claim_C3_witness :
    scan_new_content "LTT".data
      "Mission LTT failed: x Mission LTT thread finished".data
      = some false :=
  claim_C3_failure_evaluated_first "LTT".data
    "Mission LTT failed: x Mission LTT thread finished".data
    "Mission LTT failed:".data 0 22
    (by decide) (by decide) (by decide) (by decide)

/-- C9: newly appended content of the form
`Mission <job> thread finished with errors` — which contains the success
sentinel as a prefix but matches none of the listed failure patterns —
is reported as failure, not success: after locating the success sentinel
(first occurrence at index `j`) the scan additionally searches the text
from that position onward for "finished with errors" and returns failure
when found. -/
theorem claim_C9_trailing_errors_is_failure
    (mission content : List Char) (j : Nat)
    (hall : (failure_patterns mission).all
      (fun p => !(containsSub p content)) = true)
    (hfind : findSub (completion_pattern mission) content = some j)
    (herr : containsSub "finished with errors".data (content.drop j) = true) :
    scan_new_content mission content = some false :=
  scan_trailing_errors hall hfind herr

/-- Witness for C9 at the concrete line emitted by openpasslite
(src/services/openpasslite/main.py line 97) for job LTT: it matches no
failure pattern, contains the success sentinel, and scans as failure. -/
theorem claim_C9_witness :
    (failure_patterns "LTT".data).all
      (fun p => !(containsSub p "Mission LTT thread finished with errors".data))
      = true ∧
    scan_new_content "LTT".data
      "Mission LTT thread finished with errors".data = some false :=
  ⟨by decide,
    claim_C9_trailing_errors_is_failure "LTT".data
      "Mission LTT thread finished with errors".data 0
      (by decide) (by decide) (by decide)⟩

/-- C6 counterexample: the claim says call_service returns true on any
2xx response, but the source tests `status_code == 200` exactly
(main.py line 81): at the concrete 2xx status 201 it returns false. -/
theorem claim_C6_counterexample :
    (200 ≤ 201 ∧ 201 < 300 ∧
      call_service (.response 201 "Created") = false) ∧
    ¬ (∀ status : Nat, 200 ≤ status → status < 300 →
        call_service (.response status "Created") = true) := by
  refine ⟨⟨by norm_num, by norm_num, rfl⟩, fun h => ?_⟩
  have h201 := h 201 (by norm_num) (by norm_num)
  simp [call_service] at h201

/-- C6 amended: call_service returns a boolean result using a fixed
30-second request timeout; it returns true exactly on a 200 response,
false on any other status, false on timeout, and false on any other
exception — every failure is reported via the boolean (the function is
total, never raising to the caller). -/
theorem claim_C6_amended :
    (∀ (status : Nat) (text : String),
      call_service (.response status text) = true ↔ status = 200) ∧
    call_service .timedOutErr = false ∧
    call_service .otherError = false ∧
    client_timeout_seconds = 30 := by
  refine ⟨fun status text => ?_, rfl, rfl, rfl⟩
  simp [call_service]

/-- C7 counterexample: with the watched job LTT, appended content
`Mission LTT thread finished with errors` contains the success sentinel
and matches no failure sentinel, so the claim as stated demands Success;
the monitor instead returns failure (because of the "finished with
errors" check after the success sentinel), already refuting the claim at
this concrete input. -/
theorem claim_C7_counterexample :
    (containsSub (completion_pattern "LTT".data)
        "Mission LTT thread finished with errors".data = true ∧
      (failure_patterns "LTT".data).all
        (fun p => !(containsSub p
          "Mission LTT thread finished with errors".data)) = true) ∧
    wait_for_completion
      (growEnv "Mission LTT failed: earlier run ".data
        "Mission LTT thread finished with errors".data)
      "LTT".data 3 = some (.failure, 2) ∧
    some (MonitorOutcome.failure, 2) ≠ some (MonitorOutcome.success, 2) :=
  ⟨⟨by decide, by decide⟩, by decide, by decide⟩

/-- C7 amended: if, after the monitor records the log's length as
baseline, the log gains the success sentinel for the watched job with no
failure sentinel in the appended content and no "finished with errors"
text at or after the success sentinel's first occurrence, the outcome is
Success, regardless of any content — including failure text — present in
the file before the baseline offset. -/
theorem claim_C7_success_past_baseline
    (pre app mission : List Char) (j : Nat)
    (hfind : findSub (completion_pattern mission) app = some j)
    (hall : (failure_patterns mission).all
      (fun p => !(containsSub p app)) = true)
    (herr : containsSub "finished with errors".data (app.drop j) = false) :
    wait_for_completion (growEnv pre app) mission 3
      = some (.success, 2) := by
  have happ : 0 < app.length := pos_length_of_findSub hfind
  have hscan : scan_new_content mission app = some true :=
    scan_success hall hfind herr
  have h1 : wait_for_completion (growEnv pre app) mission 3
      = monitor_loop (growEnv pre app) mission 3 pre.length 0 := rfl
  rw [h1]
  rw [monitor_step_nogrow (by norm_num) rfl rfl (Nat.lt_irrefl _) (by norm_num)]
  norm_num
  have hfile2 : (growEnv pre app).file 2 = some (pre ++ app) := rfl
  have hsz2 : pre.length < (pre ++ app).length := by
    simp only [List.length_append]; omega
  have hscan2 : scan_new_content mission
      ((pre ++ app).drop pre.length) = some true := by
    rw [List.drop_left]; exact hscan
  rw [monitor_step_scan (by norm_num) rfl hfile2 hsz2 hscan2]
  simp

/-- Witness for amended C7: failure text before the baseline, the plain
success sentinel appended after it, outcome Success at the first
monitoring tick that sees the growth. -/
theorem claim_C7_witness :
    wait_for_completion
      (growEnv "Mission LTT failed: earlier content ".data
        "Mission LTT thread finished".data) "LTT".data 3
      = some (.success, 2) :=
  claim_C7_success_past_baseline
    "Mission LTT failed: earlier content ".data
    "Mission LTT thread finished".data "LTT".data 0
    (by decide) (by decide) (by decide)

/-- A log file that never comes into existence, stop never requested. -/
def noLogEnv : MonitorEnv := ⟨fun _ => none, fun _ => false⟩

/-- A log file that does not exist before time `t0` and holds the
constant content `c` from `t0` on (so it never grows after appearing),
stop never requested.  `t0 = 0` is a file present from the start. -/
def lateEnv (t0 : Nat) (c : List Char) : MonitorEnv :=
  ⟨fun t => if t < t0 then none else some c, fun _ => false⟩

/-- In noLogEnv, the appearance phase times out at 32 seconds: poll
ticks at even times up to 30 pass the `30 < t` check and sleep 2
seconds; the tick at 32 fails it. -/
lemma log_wait_noLog :
    ∀ fuel t, t % 2 = 0 → t ≤ 32 → 32 < t + 2 * fuel →
      log_wait_loop noLogEnv fuel t = some (.bail .timedOut 32) := by
  intro fuel
  induction fuel with
  | zero => intro t h1 h2 h3; omega
  | succ n ih =>
    intro t h1 h2 h3
    simp only [log_wait_loop, noLogEnv, Option.isSome_none,
      Bool.false_eq_true, if_false]
    by_cases h : 30 < t
    · have : t = 32 := by omega
      subst this
      simp
    · rw [if_neg h]
      exact ih (t + 2) (by omega) (by omega) (by omega)

/-- When the file exists at the current tick, the appearance phase
resolves immediately. -/
lemma log_wait_now {env : MonitorEnv} {t : Nat}
    (hfile : (env.file t).isSome = true) :
    ∀ fuel, 1 ≤ fuel → log_wait_loop env fuel t = some (.proceed t) := by
  intro fuel hfuel
  cases fuel with
  | zero => omega
  | succ n => simp [log_wait_loop, hfile]

/-- In lateEnv, the appearance phase resolves at `t0` when `t0` is an
even time within the 32-second window the appearance loop can reach:
every earlier tick sees no file, passes the `30 < t` check (possible
because even `t < t0 ≤ 32` forces `t ≤ 30`), and sleeps 2 seconds. -/
lemma log_wait_lateEnv (t0 : Nat) (c : List Char)
    (he : t0 % 2 = 0) (h32 : t0 ≤ 32) :
    ∀ fuel t, t % 2 = 0 → t ≤ t0 → t0 < t + 2 * fuel →
      log_wait_loop (lateEnv t0 c) fuel t = some (.proceed t0) := by
  intro fuel
  induction fuel with
  | zero => intro t h1 h2 h3; omega
  | succ n ih =>
    intro t h1 h2 h3
    have hstop : (lateEnv t0 c).stop t = false := rfl
    by_cases ht : t = t0
    · subst ht
      have hfile : (lateEnv t c).file t = some c := by
        simp [lateEnv]
      simp [log_wait_loop, hfile]
    · have hlt : t < t0 := by omega
      have hfile : (lateEnv t0 c).file t = none := by
        simp [lateEnv, hlt]
      have h30 : ¬ 30 < t := by omega
      simp only [log_wait_loop, hfile, hstop, Option.isSome_none,
        Bool.false_eq_true, if_false]
      rw [if_neg h30]
      exact ih (t + 2) (by omega) (by omega) (by omega)

/-- In lateEnv, a monitoring phase whose baseline already equals the
(unchanging) file length times out at 182 seconds: ticks at even times
up to 180 pass the `180 < t` check (measured from wait_for_completion
entry, not from when monitoring began) and sleep 2 seconds; the tick at
182 fails it. -/
lemma monitor_late_nogrow (t0 : Nat) (c mission : List Char) :
    ∀ fuel t, t0 ≤ t → t % 2 = 0 → t ≤ 182 → 182 < t + 2 * fuel →
      monitor_loop (lateEnv t0 c) mission fuel c.length t
        = some (.timedOut, 182) := by
  intro fuel
  induction fuel with
  | zero => intro t h0 h1 h2 h3; omega
  | succ n ih =>
    intro t h0 h1 h2 h3
    have hstop : (lateEnv t0 c).stop t = false := rfl
    have hnlt : ¬ t < t0 := by omega
    have hfile : (lateEnv t0 c).file t = some c := by
      simp [lateEnv, hnlt]
    simp only [monitor_loop, hstop, hfile, Bool.false_eq_true, if_false,
      Nat.lt_irrefl]
    by_cases h : 180 < t
    · have : t = 182 := by omega
      subst this
      simp
    · rw [if_neg h]
      exact ih (t + 2) (by omega) (by omega) (by omega) (by omega)

/-- wait_for_completion resolves to the appearance phase's early return
when that phase bails out. -/
lemma wait_via_bail {env : MonitorEnv} {mission : List Char} {fuel t : Nat}
    {out : MonitorOutcome}
    (h : log_wait_loop env fuel 0 = some (.bail out t)) :
    wait_for_completion env mission fuel = some (out, t) := by
  unfold wait_for_completion
  rw [h]

/-- wait_for_completion hands over to the monitoring phase with the
baseline set to the length the file had at time 0. -/
lemma wait_via_monitor {env : MonitorEnv} {mission : List Char}
    {fuel t : Nat} {c : List Char}
    (hfile : env.file 0 = some c)
    (h : log_wait_loop env fuel 0 = some (.proceed t)) :
    wait_for_completion env mission fuel
      = monitor_loop env mission fuel c.length t := by
  unfold wait_for_completion
  rw [hfile, h]

/-- wait_for_completion hands over to the monitoring phase with baseline
0 when the file did not exist at time 0. -/
lemma wait_via_monitor_absent {env : MonitorEnv} {mission : List Char}
    {fuel t : Nat}
    (hfile : env.file 0 = none)
    (h : log_wait_loop env fuel 0 = some (.proceed t)) :
    wait_for_completion env mission fuel
      = monitor_loop env mission fuel 0 t := by
  unfold wait_for_completion
  rw [hfile, h]

/-- C8 counterexample: the claim ties the 180-second timeout to elapsed
time since the monitoring phase began, but the source sets start_time at
wait_for_completion entry (main.py line 108), before the appearance
wait, and line 163 checks against that clock.  With a sentinel-free log
appearing at 28 seconds (within the 30-second appearance allowance) the
monitor returns TimedOut at absolute time 182, when only 154 seconds —
not more than 180 — have elapsed since monitoring began, refuting the
claim at this concrete input. -/
theorem claim_C8_counterexample :
    wait_for_completion (lateEnv 28 "starting up".data) "LTT".data 92
      = some (.timedOut, 182) ∧
    182 - 28 ≤ 180 ∧
    (28 : Nat) ≤ 30 :=
  ⟨by decide, by decide, by decide⟩

/-- C8 amended: the completion monitor polls every 2 seconds; when the
log stream never exists it returns TimedOut once past the 30-second
appearance timeout (at 32 = 16 polls of 2 seconds); and when the log
appears at any poll tick `t0` within the appearance window and never
grows a sentinel afterwards, it returns TimedOut once elapsed time since
wait_for_completion entry — not since the monitoring phase began —
exceeds the overall 180-second timeout, i.e. at absolute time 182
regardless of `t0`, so a late-appearing log gets correspondingly less
monitoring time. -/
theorem claim_C8_entry_clock_timeouts :
    (∀ (mission : List Char) (fuel : Nat), 17 ≤ fuel →
      wait_for_completion noLogEnv mission fuel = some (.timedOut, 32)) ∧
    (∀ (t0 : Nat) (c mission : List Char) (fuel : Nat),
      t0 % 2 = 0 → t0 ≤ 32 → 92 ≤ fuel →
      scan_new_content mission c = none →
      wait_for_completion (lateEnv t0 c) mission fuel
        = some (.timedOut, 182)) := by
  constructor
  · intro mission fuel hfuel
    exact wait_via_bail (log_wait_noLog fuel 0 (by omega) (by omega) (by omega))
  · intro t0 c mission fuel he h32 hfuel hscan
    have hlog : log_wait_loop (lateEnv t0 c) fuel 0 = some (.proceed t0) :=
      log_wait_lateEnv t0 c he h32 fuel 0 (by omega) (by omega) (by omega)
    by_cases h0 : t0 = 0
    · subst h0
      have hfile0 : (lateEnv 0 c).file 0 = some c := by simp [lateEnv]
      rw [wait_via_monitor hfile0 hlog]
      exact monitor_late_nogrow 0 c mission fuel 0
        (by omega) (by omega) (by omega) (by omega)
    · have hfile0 : (lateEnv t0 c).file 0 = none := by
        simp [lateEnv]
        omega
      rw [wait_via_monitor_absent hfile0 hlog]
      rcases Nat.eq_zero_or_pos c.length with hc | hc
      · rw [show (0 : Nat) = c.length from hc.symm]
        exact monitor_late_nogrow t0 c mission fuel t0
          (le_refl _) he (by omega) (by omega)
      · have hfilet0 : (lateEnv t0 c).file t0 = some c := by simp [lateEnv]
        have hscan0 : scan_new_content mission (c.drop 0) = none := by
          simpa using hscan
        rw [monitor_step_grow_none (by omega) rfl hfilet0 hc hscan0
          (by omega)]
        exact monitor_late_nogrow t0 c mission (fuel - 1) (t0 + 2)
          (by omega) (by omega) (by omega) (by omega)

/-- Witness for amended C8: a never-appearing log at fuel 17, and a
sentinel-free log appearing at 30 seconds that still times out at
absolute time 182. -/
theorem claim_C8_witness :
    wait_for_completion noLogEnv "LTT".data 17 = some (.timedOut, 32) ∧
    wait_for_completion (lateEnv 30 "log created".data) "LTT".data 92
      = some (.timedOut, 182) :=
  ⟨claim_C8_entry_clock_timeouts.1 "LTT".data 17 (by norm_num),
    claim_C8_entry_clock_timeouts.2 30 "log created".data "LTT".data 92
      (by norm_num) (by norm_num) (by norm_num) (by decide)⟩

/-- The enumerated flow, spelled out. -/
lemma flow_enum : flow.enum =
    [ (0, ⟨"openpasslite", "/start_mission", some "LTT"⟩)
    , (1, ⟨"wildwings", "/start_mission", none⟩)
    , (2, ⟨"openpasslite", "/start_mission", some "RTT"⟩) ] := rfl

/-- When the stop event never fires, the inter-mission wait runs all its
one-second sleeps, consuming one stop check per second. -/
lemma delay_nostop {env : PipeEnv} (hstop : ∀ k, env.stop k = false) :
    ∀ n k, delay_loop env n k
      = (false, k + n, List.replicate n .sleepSecond) := by
  intro n
  induction n with
  | zero => intro k; simp [delay_loop]
  | succ m ih =>
    intro k
    rw [delay_loop, ih (k + 1)]
    simp [hstop, List.replicate_succ]
    omega

/-- The inter-mission wait performs no service calls. -/
lemma countCalls_delay (env : PipeEnv) (idx : Nat) :
    ∀ n k, countCalls (delay_loop env n k).2.2 idx = 0 := by
  intro n
  induction n with
  | zero => intro k; rfl
  | succ m ih =>
    intro k
    rw [delay_loop]
    split
    · rfl
    · simpa [countCalls, List.countP_cons] using ih (k + 1)

/-- countCalls over the empty trace. -/
lemma countCalls_nil (idx : Nat) : countCalls [] idx = 0 := rfl

/-- countCalls counts a leading call event when its index matches. -/
lemma countCalls_cons_call (i : Nat) (b : Bool) (tr : List PipeEv) (idx : Nat) :
    countCalls (.callService i b :: tr) idx
      = countCalls tr idx + (if i = idx then 1 else 0) := by
  simp [countCalls, List.countP_cons]

/-- countCalls ignores a leading wait event. -/
lemma countCalls_cons_wait (i : Nat) (b : Bool) (tr : List PipeEv) (idx : Nat) :
    countCalls (.waitCompletion i b :: tr) idx = countCalls tr idx := by
  simp [countCalls, List.countP_cons]

/-- countCalls ignores a leading sleep event. -/
lemma countCalls_cons_sleep (tr : List PipeEv) (idx : Nat) :
    countCalls (.sleepSecond :: tr) idx = countCalls tr idx := by
  simp [countCalls, List.countP_cons]

/-- countCalls adds over trace concatenation. -/
lemma countCalls_append (tr1 tr2 : List PipeEv) (idx : Nat) :
    countCalls (tr1 ++ tr2) idx = countCalls tr1 idx + countCalls tr2 idx := by
  simp [countCalls, List.countP_append]

/-- Each remaining step contributes at most as many call_service
invocations as its index occurs in the remaining index list — in
particular at most one, since indices are distinct. -/
lemma countCalls_run_steps (env : PipeEnv) :
    ∀ (steps : List (Nat × FlowStep)) (k idx : Nat),
      countCalls (run_steps env steps k).2.2 idx
        ≤ (steps.map Prod.fst).count idx := by
  intro steps
  induction steps with
  | nil => intro k idx; simp [run_steps, countCalls]
  | cons hd rest ih =>
    obtain ⟨jdx, st⟩ := hd
    intro k idx
    have hcount : (((jdx, st) :: rest).map Prod.fst).count idx
        = (rest.map Prod.fst).count idx + (if jdx = idx then 1 else 0) := by
      simp [List.count_cons]
    rw [run_steps, hcount]
    have ih1 := ih (k + 1) idx
    have ih2 := ih (delay_loop env (interDelay st) (k + 1)).2.1 idx
    have hd0 := countCalls_delay env idx (interDelay st) (k + 1)
    have hb0 : jdx ≠ 0 → (jdx == 0) = false := by intro h; simp [h]
    have hb1 : jdx ≠ 1 → (jdx == 1) = false := by intro h; simp [h]
    cases hs : env.stop k with
    | true => simp [hs, countCalls_nil]
    | false =>
      cases hc : env.callOk jdx with
      | false =>
        by_cases h0 : jdx = 0
        · subst h0
          simp [hs, hc, countCalls_cons_call, countCalls_nil]
          all_goals (first | (split <;> omega) | omega)
        · by_cases h1 : jdx = 1
          · subst h1
            simp [hs, hc, countCalls_cons_call]
            all_goals (first | (split <;> omega) | omega)
          · simp [hs, hc, hb0 h0, hb1 h1, countCalls_cons_call,
              countCalls_nil]
            all_goals (first | (split <;> omega) | omega)
      | true =>
        cases hw : env.waitOk jdx with
        | false =>
          by_cases h0 : jdx = 0
          · subst h0
            simp [hs, hc, hw, countCalls_cons_call, countCalls_cons_wait,
              countCalls_nil]
            all_goals (first | (split <;> omega) | omega)
          · by_cases h1 : jdx = 1
            · subst h1
              simp [hs, hc, hw, countCalls_cons_call, countCalls_cons_wait]
              all_goals (first | (split <;> omega) | omega)
            · simp [hs, hc, hw, hb0 h0, hb1 h1, countCalls_cons_call,
                countCalls_cons_wait, countCalls_nil]
              all_goals (first | (split <;> omega) | omega)
        | true =>
          cases hdl : (delay_loop env (interDelay st) (k + 1)).1 with
          | true =>
            simp [hs, hc, hw, hdl, countCalls_cons_call,
              countCalls_cons_wait, hd0]
            all_goals (first | (split <;> omega) | omega)
          | false =>
            simp [hs, hc, hw, hdl, countCalls_cons_call,
              countCalls_cons_wait, countCalls_append, hd0]
            all_goals (first | (split <;> omega) | omega)

/-- An environment in which every call_service invocation fails and the
stop event never fires. -/
def envAllCallFail : PipeEnv := ⟨fun _ => false, fun _ => true, fun _ => false⟩

/-- An environment in which every call and every completion wait
succeeds and the stop event never fires. -/
def allOkEnv : PipeEnv := ⟨fun _ => true, fun _ => true, fun _ => false⟩

/-- An environment in which every call and wait succeeds and the stop
event reads false for the first `k` stop checks and true from the `k`-th
check on. -/
def stopAtEnv (k : Nat) : PipeEnv :=
  ⟨fun _ => true, fun _ => true, fun n => decide (k ≤ n)⟩

/-- C1 counterexample: the claim predicts 3 call attempts separated by
two 5-second delays for an always-failing step; in the source there is
no retry loop at all (main.py line 207 calls call_service once), so with
every call failing, the run performs exactly one call attempt for step 0
and no delay, then aborts. -/
theorem claim_C1_counterexample :
    countCalls (execute_pipeline envAllCallFail).2.2 0 = 1 ∧
    (1 : Nat) ≠ 3 ∧
    (execute_pipeline envAllCallFail).2.2 = [.callService 0 false] ∧
    (execute_pipeline envAllCallFail).1 = false := by
  refine ⟨by decide, by decide, by decide, by decide⟩

/-- C1 amended: every pipeline step performs at most one call attempt in
any execution (the code has no retry mechanism or retry delay), and with
a remote start call that always fails, the background execution performs
exactly one call attempt — with no delays — before treating the step's
call phase as failed and aborting at step 0. -/
theorem claim_C1_single_call_attempt :
    (∀ (env : PipeEnv) (idx : Nat),
      countCalls (execute_pipeline env).2.2 idx ≤ 1) ∧
    (∀ env : PipeEnv, (∀ k, env.stop k = false) →
      (∀ i, env.callOk i = false) →
      execute_pipeline env = (false, 1, [.callService 0 false])) := by
  constructor
  · intro env idx
    have h := countCalls_run_steps env flow.enum 0 idx
    have hle : (flow.enum.map Prod.fst).count idx ≤ 1 := by
      have : flow.enum.map Prod.fst = [0, 1, 2] := rfl
      rw [this]
      have hnd : ([0, 1, 2] : List Nat).Nodup := by decide
      exact List.nodup_iff_count_le_one.mp hnd idx
    exact le_trans h hle
  · intro env hstop hcall
    simp only [execute_pipeline, flow_enum]
    rw [run_steps]
    simp [hstop 0, hcall 0]

/-- Witness for C1 amended, instantiating both conjuncts on the
all-calls-fail environment. -/
theorem claim_C1_witness :
    countCalls (execute_pipeline envAllCallFail).2.2 0 ≤ 1 ∧
    execute_pipeline envAllCallFail = (false, 1, [.callService 0 false]) :=
  ⟨claim_C1_single_call_attempt.1 envAllCallFail 0,
    claim_C1_single_call_attempt.2 envAllCallFail
      (fun _ => rfl) (fun _ => rfl)⟩

/-- An environment in which exactly the second step's call fails and
nothing else goes wrong. -/
def c1failEnv : PipeEnv :=
  ⟨fun i => decide (i ≠ 1), fun _ => true, fun _ => false⟩

/-- C4: the index-hard-coded per-step failure policy.  If the first
step's call or completion fails, the run ends false (Failed) with no
later step invoked; if the second step's call fails, execution proceeds
to the third step without any completion wait for the second step; if
the second step's completion fails, execution still proceeds to the
third step; and if the third (last) step's call or completion fails, the
run ends false. -/
theorem claim_C4_step_failure_policy (env : PipeEnv)
    (hstop : ∀ k, env.stop k = false) :
    (env.callOk 0 = false →
      (execute_pipeline env).1 = false ∧
      (∀ i b, 1 ≤ i → PipeEv.callService i b ∉ (execute_pipeline env).2.2) ∧
      (∀ i b, PipeEv.waitCompletion i b ∉ (execute_pipeline env).2.2)) ∧
    (env.callOk 0 = true → env.waitOk 0 = false →
      (execute_pipeline env).1 = false ∧
      (∀ i b, 1 ≤ i → PipeEv.callService i b ∉ (execute_pipeline env).2.2)) ∧
    (env.callOk 0 = true → env.waitOk 0 = true → env.callOk 1 = false →
      (∃ b, PipeEv.callService 2 b ∈ (execute_pipeline env).2.2) ∧
      (∀ b, PipeEv.waitCompletion 1 b ∉ (execute_pipeline env).2.2)) ∧
    (env.callOk 0 = true → env.waitOk 0 = true → env.callOk 1 = true →
      env.waitOk 1 = false →
      (∃ b, PipeEv.callService 2 b ∈ (execute_pipeline env).2.2)) ∧
    (env.callOk 0 = true → env.waitOk 0 = true → env.callOk 1 = true →
      env.waitOk 1 = true → (env.callOk 2 = false ∨ env.waitOk 2 = false) →
      (execute_pipeline env).1 = false) := by
  refine ⟨fun h0 => ?_, fun h0 h0w => ?_, fun h0 h0w h1 => ?_,
    fun h0 h0w h1 h1w => ?_, fun h0 h0w h1 h1w h2 => ?_⟩
  · simp only [execute_pipeline, flow_enum]
    rw [run_steps]
    simp [hstop 0, h0]
    omega
  · simp only [execute_pipeline, flow_enum]
    rw [run_steps]
    simp [hstop 0, h0, h0w]
    omega
  · cases hc2 : env.callOk 2 with
    | false =>
      simp [execute_pipeline, flow_enum, run_steps, hstop, h0, h0w, h1,
        hc2, delay_nostop hstop, interDelay, List.mem_replicate]
    | true =>
      cases hw2 : env.waitOk 2 with
      | false =>
        simp [execute_pipeline, flow_enum, run_steps, hstop, h0, h0w, h1,
          hc2, hw2, delay_nostop hstop, interDelay, List.mem_replicate]
      | true =>
        simp [execute_pipeline, flow_enum, run_steps, hstop, h0, h0w, h1,
          hc2, hw2, delay_nostop hstop, interDelay, List.mem_replicate]
  · cases hc2 : env.callOk 2 with
    | false =>
      simp [execute_pipeline, flow_enum, run_steps, hstop, h0, h0w, h1,
        h1w, hc2, delay_nostop hstop, interDelay, List.mem_replicate]
    | true =>
      cases hw2 : env.waitOk 2 with
      | false =>
        simp [execute_pipeline, flow_enum, run_steps, hstop, h0, h0w, h1,
          h1w, hc2, hw2, delay_nostop hstop, interDelay, List.mem_replicate]
      | true =>
        simp [execute_pipeline, flow_enum, run_steps, hstop, h0, h0w, h1,
          h1w, hc2, hw2, delay_nostop hstop, interDelay, List.mem_replicate]
  · rcases h2 with h2 | h2
    · simp [execute_pipeline, flow_enum, run_steps, hstop, h0, h0w, h1,
        h1w, h2, delay_nostop hstop, interDelay]
    · cases hc2 : env.callOk 2 with
      | false =>
        simp [execute_pipeline, flow_enum, run_steps, hstop, h0, h0w, h1,
          h1w, hc2, delay_nostop hstop, interDelay]
      | true =>
        simp [execute_pipeline, flow_enum, run_steps, hstop, h0, h0w, h1,
          h1w, h2, hc2, delay_nostop hstop, interDelay]

/-- Witness for C4 on the concrete environment where exactly the second
step's call fails: the third step is still invoked and the second step's
completion is never awaited. -/
theorem claim_C4_witness :
    (∃ b, PipeEv.callService 2 b ∈ (execute_pipeline c1failEnv).2.2) ∧
    (∀ b, PipeEv.waitCompletion 1 b ∉ (execute_pipeline c1failEnv).2.2) :=
  (claim_C4_step_failure_policy c1failEnv (fun _ => rfl)).2.2.1
    rfl rfl rfl

/-- C10: the inter-step delay runs after every step of the flow,
including the final one (no flow entry is an openpasslite TAKEOFF, so
every step gets the 10-second wait): in a fully successful run the
trace ends with 10 one-second sleeps after the last step's completion,
33 stop checks are performed (one per loop head plus one per sleep
second), and the run reports true; while a stop request first observed
at any of the final window's checks (numbers 23 through 32) makes the
whole run report false instead of true — and one first observed only
after the window (check 33) leaves the run successful. -/
theorem claim_C10_final_delay :
    (execute_pipeline allOkEnv =
      (true, 33,
        [PipeEv.callService 0 true, PipeEv.waitCompletion 0 true]
          ++ List.replicate 10 .sleepSecond
          ++ [PipeEv.callService 1 true, PipeEv.waitCompletion 1 true]
          ++ List.replicate 10 .sleepSecond
          ++ [PipeEv.callService 2 true, PipeEv.waitCompletion 2 true]
          ++ List.replicate 10 .sleepSecond)) ∧
    (∀ k, 23 ≤ k → k ≤ 32 → (execute_pipeline (stopAtEnv k)).1 = false) ∧
    (execute_pipeline (stopAtEnv 33)).1 = true := by
  refine ⟨by decide, fun k h1 h2 => ?_, by decide⟩
  interval_cases k <;> decide

/-- Witness for C10: a stop request first observed at check 25 — inside
the final 10-second window, after the last step completed — makes the
run report false. -/
theorem claim_C10_witness :
    (execute_pipeline (stopAtEnv 25)).1 = false :=
  claim_C10_final_delay.2.1 25 (by norm_num) (by norm_num)

/-- The idle start state satisfies the single-flight invariant. -/
lemma singleFlight_init : SingleFlight initState := by
  constructor <;> simp [initState]

/-- Every atomic operation preserves the single-flight invariant. -/
lemma singleFlight_step (s : SState) (op : SOp) :
    SingleFlight s → SingleFlight (apply_op s op) := by
  intro h
  obtain ⟨h1, h2⟩ := h
  cases op with
  | initiate la lo =>
    simp only [apply_op, initiate_process]
    split
    · exact ⟨h1, h2⟩
    · exact ⟨h1, h2⟩
  | taskBegin =>
    simp only [apply_op, task_begin]
    split
    · exact ⟨h1, h2⟩
    · split
      · exact ⟨h1, h2⟩
      · rename_i hpend hrun
        have hrf : s.running = false := by
          cases hr : s.running
          · rfl
          · exact absurd hr hrun
        rw [hrf] at h2
        simp at h2
        refine ⟨by simp; omega, by simp; omega⟩
  | taskFinish =>
    simp only [apply_op, task_finish]
    split
    · exact ⟨h1, h2⟩
    · rename_i hact
      refine ⟨by simp; omega, by simp; omega⟩
  | reqStop =>
    simp only [apply_op, request_stop]
    split
    · exact ⟨h1, h2⟩
    · exact ⟨h1, h2⟩

/-- The single-flight invariant holds after any operation sequence. -/
lemma singleFlight_run : ∀ (ops : List SOp) (s : SState),
    SingleFlight s → SingleFlight (run_ops s ops) := by
  intro ops
  induction ops with
  | nil => intro s h; exact h
  | cons op rest ih =>
    intro s h
    simpa [run_ops] using ih (apply_op s op) (singleFlight_step s op h)

/-- C2: initiate_process rejects with HTTP 409 exactly when a run is
active (pipeline_running true); otherwise it returns Accepted
immediately — without itself executing any of the pipeline (activeTasks
unchanged) — having recorded the coordinates and created the background
task, whose prologue transitions the state to running with the cancel
flag cleared; and across every sequence of operations from the idle
start state, at most one background execution is ever active, with
pipeline_running true exactly while one is. -/
theorem claim_C2_single_flight :
    (∀ (s : SState) (la lo : Int),
      ((initiate_process s la lo).1 = .alreadyRunning409 ↔
        s.running = true)) ∧
    (∀ (s : SState) (la lo : Int), s.running = false →
      (initiate_process s la lo).1 = .accepted ∧
      (initiate_process s la lo).2.activeTasks = s.activeTasks ∧
      (task_begin (initiate_process s la lo).2).running = true ∧
      (task_begin (initiate_process s la lo).2).stopRequested = false ∧
      (task_begin (initiate_process s la lo).2).coords = some (la, lo) ∧
      (task_begin (initiate_process s la lo).2).activeTasks
        = s.activeTasks + 1) ∧
    (∀ ops : List SOp, SingleFlight (run_ops initState ops)) := by
  refine ⟨fun s la lo => ?_, fun s la lo h => ?_,
    fun ops => singleFlight_run ops initState singleFlight_init⟩
  · cases hr : s.running <;> simp [initiate_process, hr]
  · simp [initiate_process, task_begin, h]

/-- Witness for C2: from the idle start state a start is accepted, and
the invariant holds after a start, task begin, stop request, and task
finish. -/
theorem claim_C2_witness :
    (initiate_process initState 1 2).1 = InitResult.accepted ∧
    SingleFlight (run_ops initState
      [SOp.initiate 1 2, SOp.taskBegin, SOp.reqStop, SOp.taskFinish]) :=
  ⟨(claim_C2_single_flight.2.1 initState 1 2 rfl).1,
    claim_C2_single_flight.2.2 _⟩

/-- A state with one active run, as left by an accepted start whose
background task has begun executing. -/
def activeState : SState :=
  { running := true, stopRequested := false, coords := some (1, 2)
  , pendingTasks := 0, activeTasks := 1 }

/-- C5 counterexample: the claim says stop_pipeline does not itself
force-terminate the background task, but the handler calls
pipeline_task.cancel() whenever a task exists and is not done
(main.py lines 426-431): at a concrete active state with a live task the
response records that the task was cancelled. -/
theorem claim_C5_counterexample :
    (stop_pipeline activeState (fun _ => true) true).1.cancelledTask
      = true ∧
    (stop_pipeline activeState (fun _ => true) true).1.cancelledTask
      ≠ false := by
  exact ⟨rfl, by decide⟩

/-- C5 amended: stop_pipeline called while a run is active sets the
cancel flag, issues a stop command to every known service regardless of
which step is active, returns the services that acknowledged versus
failed, and additionally cancels the background task via asyncio
task.cancel() whenever one exists and is not yet done (interrupting it
at its next await) rather than only letting it observe the flag; when no
run is active it returns already_stopped without contacting any remote
service and leaves the state unchanged. -/
theorem claim_C5_stop_behavior (s : SState) (svcOk : String → Bool)
    (taskPresentNotDone : Bool) :
    (s.running = true →
      (stop_pipeline s svcOk taskPresentNotDone).2
          = { s with stopRequested := true } ∧
      (stop_pipeline s svcOk taskPresentNotDone).1.statusMsg = "stopped" ∧
      (stop_pipeline s svcOk taskPresentNotDone).1.contactedServices
          = services ∧
      (stop_pipeline s svcOk taskPresentNotDone).1.stoppedServices
          = services.filter (fun n => svcOk n) ∧
      (stop_pipeline s svcOk taskPresentNotDone).1.failedServices
          = services.filter (fun n => !(svcOk n)) ∧
      (stop_pipeline s svcOk taskPresentNotDone).1.cancelledTask
          = taskPresentNotDone) ∧
    (s.running = false →
      (stop_pipeline s svcOk taskPresentNotDone).1.statusMsg
          = "already_stopped" ∧
      (stop_pipeline s svcOk taskPresentNotDone).1.contactedServices
          = [] ∧
      (stop_pipeline s svcOk taskPresentNotDone).2 = s) := by
  constructor
  · intro h
    simp [stop_pipeline, h]
  · intro h
    simp [stop_pipeline, h]

/-- Witness for C5 amended: stopping from the active state with one
service acknowledging and one failing, and stopping from the idle start
state. -/
theorem claim_C5_witness :
    (stop_pipeline activeState (fun n => n == "openpasslite") true).1.stoppedServices
      = ["openpasslite"] ∧
    (stop_pipeline initState (fun _ => true) false).1.statusMsg
      = "already_stopped" :=
  ⟨((claim_C5_stop_behavior activeState
      (fun n => n == "openpasslite") true).1 rfl).2.2.2.1,
    ((claim_C5_stop_behavior initState (fun _ => true) false).2 rfl).1⟩

end SmartFields
